import Mathlib

/-!
Verification of the KAS backend report store (`src/backend/API/auth.js`):
a dual-engine (PostgreSQL / SQLite) persistence layer for monthly-partitioned
report records, together with its HTTP submission/query routes and the
startup backend selector.

The JavaScript source is shallowly embedded: JS dynamic values are `JSValue`,
the two storage engines are explicit states (`PgState`, one `SqliteDb` per
month-partition file), `Date`-based month extraction is embedded via the
standard civil-from-days calendar algorithm with the host time zone as an
explicit offset parameter, and fallible operations return `Except`.
-/

set_option maxHeartbeats 2000000

/-! Calendar: embedding of the year/month extraction performed by the
JavaScript runtime for `new Date(t).getFullYear()` / `.getMonth()`,
via the standard civil-from-days algorithm (proleptic Gregorian). -/

def cfdEra (z : Int) : Int := (z + 719468) / 146097

def cfdDoe (z : Int) : Nat := ((z + 719468) % 146097).toNat

def yoeNum (doe : Nat) : Nat := doe - doe / 1460 + doe / 36524 - doe / 146096

def cfdYoe (doe : Nat) : Nat := yoeNum doe / 365

def cfdDoy (doe : Nat) : Nat :=
  doe - (365 * cfdYoe doe + cfdYoe doe / 4 - cfdYoe doe / 100)

def cfdMp (doe : Nat) : Nat := (5 * cfdDoy doe + 2) / 153

def cfdMonth (doe : Nat) : Nat :=
  if cfdMp doe < 10 then cfdMp doe + 3 else cfdMp doe - 9

def civilYear (era : Int) (doe : Nat) : Int :=
  if cfdMonth doe ≤ 2 then era * 400 + (cfdYoe doe : Int) + 1
  else era * 400 + (cfdYoe doe : Int)

def civilFromDays (z : Int) : Int × Nat :=
  (civilYear (cfdEra z) (cfdDoe z), cfdMonth (cfdDoe z))

/-! Spec-side calendar: textbook proleptic-Gregorian month boundaries. -/

def isLeapYear (y : Int) : Bool :=
  (decide (y % 4 = 0) && !(decide (y % 100 = 0))) || decide (y % 400 = 0)

def monthLength (y : Int) (m : Nat) : Nat :=
  match m with
  | 1 => 31
  | 2 => if isLeapYear y then 29 else 28
  | 3 => 31
  | 4 => 30
  | 5 => 31
  | 6 => 30
  | 7 => 31
  | 8 => 31
  | 9 => 30
  | 10 => 31
  | 11 => 30
  | 12 => 31
  | _ => 0

def daysBeforeMonthInYear (y : Int) (m : Nat) : Nat :=
  (match m with
   | 1 => 0
   | 2 => 31
   | 3 => 59
   | 4 => 90
   | 5 => 120
   | 6 => 151
   | 7 => 181
   | 8 => 212
   | 9 => 243
   | 10 => 273
   | 11 => 304
   | 12 => 334
   | _ => 365) + (if isLeapYear y && decide (3 ≤ m) && decide (m ≤ 12) then 1 else 0)

def specYearStartDay (y : Int) : Int :=
  365 * (y - 1) + (y - 1) / 4 - (y - 1) / 100 + (y - 1) / 400 - 719162

def specMonthStartDay (y : Int) (m : Nat) : Int :=
  specYearStartDay y + (daysBeforeMonthInYear y m : Int)

/-! Correctness of the year extraction. -/

def eraYearStartFull (n : Nat) : Nat := 365 * n + n / 4 - n / 100 + n / 400

def endsOk (yoe : Nat) : Bool :=
  (cfdYoe (eraYearStartFull yoe) == yoe) && (cfdYoe (eraYearStartFull (yoe + 1) - 1) == yoe)

def allRange (f : Nat → Bool) : Nat → Nat → Nat → Bool
  | 0, _, n => n == 0
  | fuel + 1, lo, n =>
    if n == 0 then true
    else if n == 1 then f lo
    else allRange f fuel lo (n / 2) && allRange f fuel (lo + n / 2) (n - n / 2)

/-! ## The partition key deriver

`getMonthPartition(timestamp)` from the source builds
`${date.getFullYear()}-${String(date.getMonth() + 1).padStart(2, '0')}` in the
server's local time zone.  The host time zone is modelled as a fixed offset in
minutes (`tz`), so local civil time of instant `t` is `t + tz * 60000`. -/

def localDays (tz timestamp : Int) : Int := (timestamp + tz * 60000) / 86400000

/-- Embedding of `String(month).padStart(2, '0')`. -/
def padStart2Zero (s : String) : String :=
  if s.length < 2 then String.mk (List.replicate (2 - s.length) '0') ++ s else s

/-- Embedding of `getMonthPartition` (src/backend/utils/db-adapter.js part of auth.js). -/
def getMonthPartition (tz : Int) (timestamp : Int) : String :=
  let ym := civilFromDays (localDays tz timestamp)
  toString ym.1 ++ "-" ++ padStart2Zero (toString ym.2)

/-! ## JavaScript dynamic values -/

inductive JSValue where
  | undefined
  | null
  | bool (b : Bool)
  | num (n : Int)
  | str (s : String)
deriving DecidableEq, Repr

/-- JS truthiness (numbers are modelled as integers, so `NaN` is out of scope). -/
def jsTruthy : JSValue → Bool
  | .undefined => false
  | .null => false
  | .bool b => b
  | .num n => n != 0
  | .str s => s != ""

/-- Embedding of `Boolean(v)`. -/
def jsToBoolean (v : JSValue) : Bool := jsTruthy v

/-- Leading decimal-digit run of a character list. -/
def digitsPrefixOf (cs : List Char) : List Char := cs.takeWhile (fun c => c.isDigit)

def digitsToNat (cs : List Char) : Nat :=
  cs.foldl (fun a c => a * 10 + (c.toNat - 48)) 0

/-- Embedding of `parseInt(v)` restricted to the value shapes the routes can
receive: an integer number parses to itself, a string parses its optional sign
plus leading digit run, everything else is `NaN` (`none`). -/
def parseIntJS : JSValue → Option Int
  | .num n => some n
  | .str s =>
    match s.data with
    | '-' :: rest =>
      let d := digitsPrefixOf rest
      if d.isEmpty then none else some (-(digitsToNat d : Int))
    | '+' :: rest =>
      let d := digitsPrefixOf rest
      if d.isEmpty then none else some ((digitsToNat d : Int))
    | cs =>
      let d := digitsPrefixOf cs
      if d.isEmpty then none else some ((digitsToNat d : Int))
  | _ => none

/-! ## Persisted rows and engine states

A stored row.  `isadd` keeps the engine-normalized dynamic value: the SQLite
branch binds the integers `0`/`1`, the PostgreSQL branch binds a native
boolean.  `note`/`submitter` are bound as given (SQLite is dynamically typed);
the engines reject `null`/`undefined` binds through the NOT NULL constraints.
`created_at` (backend-assigned, informational) is not modelled. -/
structure Row where
  id : Nat
  classNum : Int
  isadd : JSValue
  changescore : Int
  submittime : Int
  note : JSValue
  submitter : JSValue
  month_partition : String
deriving DecidableEq, Repr

/-- One SQLite database file (`reports_<month>.db`).  `tables`/`indexes` list
the names present in `sqlite_master`. -/
structure SqliteDb where
  tables : List String
  indexes : List String
  rows : List Row
  nextId : Nat
deriving DecidableEq, Repr

/-- A freshly created (empty) database file. -/
def emptySqliteDb : SqliteDb := ⟨[], [], [], 1⟩

/-- The DB directory: month-partition key ↦ database file. -/
def SqliteDir := List (String × SqliteDb)

def sqliteLookup (ym : String) : List (String × SqliteDb) → Option SqliteDb
  | [] => none
  | (k, db) :: rest => if k == ym then some db else sqliteLookup ym rest

def sqliteSet (ym : String) (db : SqliteDb) : List (String × SqliteDb) → List (String × SqliteDb)
  | [] => [(ym, db)]
  | (k, d) :: rest => if k == ym then (ym, db) :: rest else (k, d) :: sqliteSet ym db rest

def sqliteFileName (monthPartition : String) : String :=
  "reports_" ++ monthPartition ++ ".db"

/-- `CREATE TABLE IF NOT EXISTS reports (...)`: no-op when present. -/
def sqliteExecCreateTable (db : SqliteDb) : SqliteDb :=
  if db.tables.contains "reports" then db
  else { db with tables := db.tables ++ ["reports"], rows := [], nextId := 1 }

/-- The `sqlite_master` index-existence probe. -/
def sqliteIndexExists (db : SqliteDb) : Bool := db.indexes.contains "idx_month_partition"

/-- `CREATE INDEX idx_month_partition ...` — errors when the index exists. -/
def sqliteExecCreateIndex (db : SqliteDb) : Except String SqliteDb :=
  if db.indexes.contains "idx_month_partition" then .error "index idx_month_partition already exists"
  else .ok { db with indexes := db.indexes ++ ["idx_month_partition"] }

/-- Embedding of `ensureSqliteTable(db)`. -/
def ensureSqliteTable (db : SqliteDb) : Except String SqliteDb :=
  let db1 := sqliteExecCreateTable db
  if sqliteIndexExists db1 then .ok db1
  else sqliteExecCreateIndex db1

/-- Embedding of `getSqliteDatabase(monthPartition)`: `new Database(path)`
creates the file when absent, then the schema is ensured; the resulting
handle and the updated directory are returned. -/
def getSqliteDatabase (monthPartition : String) (dir : List (String × SqliteDb)) :
    Except String (SqliteDb × List (String × SqliteDb)) :=
  let db0 := (sqliteLookup monthPartition dir).getD emptySqliteDb
  match ensureSqliteTable db0 with
  | .error e => .error e
  | .ok db1 => .ok (db1, sqliteSet monthPartition db1 dir)

/-- The shared PostgreSQL database: one logical `reports` table. -/
structure PgState where
  tables : List String
  indexes : List String
  rows : List Row
  nextId : Nat
deriving DecidableEq, Repr

def emptyPgState : PgState := ⟨[], [], [], 1⟩

/-- The `information_schema.tables` existence probe. -/
def pgTableExists (pg : PgState) : Bool := pg.tables.contains "reports"

/-- `CREATE TABLE reports (...)` — errors when the table exists. -/
def pgCreateTable (pg : PgState) : Except String PgState :=
  if pg.tables.contains "reports" then .error "relation reports already exists"
  else .ok { pg with tables := pg.tables ++ ["reports"], rows := [], nextId := 1 }

/-- `CREATE INDEX reports_month_partition_idx ...` — errors when it exists. -/
def pgCreateIndex (pg : PgState) : Except String PgState :=
  if pg.indexes.contains "reports_month_partition_idx" then
    .error "index reports_month_partition_idx already exists"
  else .ok { pg with indexes := pg.indexes ++ ["reports_month_partition_idx"] }

/-- Embedding of `ensurePostgresTable(client)`. -/
def ensurePostgresTable (pg : PgState) : Except String PgState :=
  if pgTableExists pg then .ok pg
  else
    match pgCreateTable pg with
    | .error e => .error e
    | .ok pg1 => pgCreateIndex pg1

/-! ## Backend context, effects, and the report store -/

inductive DbType where
  | postgres
  | sqlite
deriving DecidableEq, Repr

/-- `global.dbContext` plus the reachable storage state of both engines
(`type` selects which one is live). -/
structure DbContext where
  type : DbType
  pg : PgState
  dir : List (String × SqliteDb)
deriving DecidableEq, Repr

/-- Observable engine interactions, in order of occurrence. -/
inductive DbEffect where
  | pgConnect
  | pgEnsureTable
  | pgInsert
  | pgQuery
  | sqliteOpen (file : String)
  | sqliteEnsureTable
  | sqliteInsert
  | sqliteQuery
deriving DecidableEq, Repr

/-- The submitted fields, as destructured by `addReport` (the JS field
`class` is aliased to `classNum` exactly as the source does). -/
structure ReportInput where
  classNum : JSValue
  isadd : JSValue
  changescore : JSValue
  note : JSValue
  submitter : JSValue
deriving DecidableEq, Repr

/-- The success payload of `addReport`. -/
structure AddResult where
  id : Nat
  database : String
  submittime : Int
deriving DecidableEq, Repr

/-- A value acceptable for a NOT NULL text bind. -/
def bindableText : JSValue → Bool
  | .undefined => false
  | .null => false
  | _ => true

/-- Embedding of `addReport(data)`.  `now` stands for the `Date.now()` call;
`tz` is the host time-zone offset used by `getMonthPartition`. -/
def addReport (tz : Int) (data : ReportInput) (now : Int) (ctx : DbContext) :
    Except String AddResult × DbContext × List DbEffect :=
  let submittime := now
  let monthPartition := getMonthPartition tz submittime
  match ctx.type with
  | .postgres =>
    match ensurePostgresTable ctx.pg with
    | .error e => (.error e, ctx, [.pgConnect, .pgEnsureTable])
    | .ok pg1 =>
      match parseIntJS data.classNum, parseIntJS data.changescore with
      | some c, some s =>
        if bindableText data.note && bindableText data.submitter then
          let row : Row :=
            { id := pg1.nextId, classNum := c, isadd := .bool (jsToBoolean data.isadd),
              changescore := s, submittime := submittime, note := data.note,
              submitter := data.submitter, month_partition := monthPartition }
          (.ok { id := pg1.nextId, database := monthPartition, submittime := submittime },
           { ctx with pg := { pg1 with rows := pg1.rows ++ [row], nextId := pg1.nextId + 1 } },
           [.pgConnect, .pgEnsureTable, .pgInsert])
        else
          (.error "null value violates not-null constraint", { ctx with pg := pg1 },
           [.pgConnect, .pgEnsureTable, .pgInsert])
      | _, _ =>
        (.error "invalid input syntax for type integer", { ctx with pg := pg1 },
         [.pgConnect, .pgEnsureTable, .pgInsert])
  | .sqlite =>
    match getSqliteDatabase monthPartition ctx.dir with
    | .error e => (.error e, ctx, [.sqliteOpen (sqliteFileName monthPartition), .sqliteEnsureTable])
    | .ok (db, dir1) =>
      match parseIntJS data.classNum, parseIntJS data.changescore with
      | some c, some s =>
        if bindableText data.note && bindableText data.submitter then
          let row : Row :=
            { id := db.nextId, classNum := c,
              isadd := .num (if jsToBoolean data.isadd then 1 else 0),
              changescore := s, submittime := submittime, note := data.note,
              submitter := data.submitter, month_partition := monthPartition }
          let db1 := { db with rows := db.rows ++ [row], nextId := db.nextId + 1 }
          (.ok { id := db.nextId, database := monthPartition, submittime := submittime },
           { ctx with dir := sqliteSet monthPartition db1 dir1 },
           [.sqliteOpen (sqliteFileName monthPartition), .sqliteEnsureTable, .sqliteInsert])
        else
          (.error "NOT NULL constraint failed", { ctx with dir := dir1 },
           [.sqliteOpen (sqliteFileName monthPartition), .sqliteEnsureTable, .sqliteInsert])
      | _, _ =>
        (.error "datatype mismatch", { ctx with dir := dir1 },
         [.sqliteOpen (sqliteFileName monthPartition), .sqliteEnsureTable, .sqliteInsert])

/-- The `ORDER BY submittime DESC` relation: a row may precede rows with
smaller-or-equal submit time. -/
def rowDesc (a b : Row) : Prop := b.submittime ≤ a.submittime

instance : DecidableRel rowDesc := fun a b => inferInstanceAs (Decidable (b.submittime ≤ a.submittime))

instance : IsTotal Row rowDesc := ⟨fun a b => le_total b.submittime a.submittime⟩

instance : IsTrans Row rowDesc := ⟨fun _ _ _ hab hbc => le_trans hbc hab⟩

/-- Model of `ORDER BY submittime DESC` over the filtered row set. -/
def orderBySubmittimeDesc (rows : List Row) : List Row := List.insertionSort rowDesc rows

/-- Embedding of `getReportsByMonth(yearMonth)`. -/
def getReportsByMonth (yearMonth : String) (ctx : DbContext) :
    Except String (List Row) × DbContext × List DbEffect :=
  match ctx.type with
  | .postgres =>
    match ensurePostgresTable ctx.pg with
    | .error e => (.error e, ctx, [.pgConnect, .pgEnsureTable])
    | .ok pg1 =>
      (.ok (orderBySubmittimeDesc (pg1.rows.filter (fun r => r.month_partition == yearMonth))),
       { ctx with pg := pg1 }, [.pgConnect, .pgEnsureTable, .pgQuery])
  | .sqlite =>
    match getSqliteDatabase yearMonth ctx.dir with
    | .error e =>
      (.error e, ctx, [.sqliteOpen (sqliteFileName yearMonth), .sqliteEnsureTable])
    | .ok (db, dir1) =>
      if db.tables.contains "reports" then
        (.ok (orderBySubmittimeDesc (db.rows.filter (fun r => r.month_partition == yearMonth))),
         { ctx with dir := dir1 },
         [.sqliteOpen (sqliteFileName yearMonth), .sqliteEnsureTable, .sqliteQuery])
      else
        (.ok [], { ctx with dir := dir1 },
         [.sqliteOpen (sqliteFileName yearMonth), .sqliteEnsureTable])

/-! ## HTTP routes (src/backend/API/inputdata.js part of auth.js) -/

inductive Resp where
  | ok (id : Nat) (database : String) (submittime : Int)
  | badRequest
  | serverError
deriving DecidableEq, Repr

/-- Embedding of the `POST /inputdata` handler: the required-field check
`!classNum || isadd === undefined || !changescore || !note || !submitter`
runs before any `dbAdapter` call; failures of the adapter are caught and
surface as a 500. -/
def postInputdata (tz : Int) (ctx : DbContext) (body : ReportInput) (now : Int) :
    Resp × DbContext × List DbEffect :=
  if !jsTruthy body.classNum || body.isadd == JSValue.undefined || !jsTruthy body.changescore
      || !jsTruthy body.note || !jsTruthy body.submitter then
    (.badRequest, ctx, [])
  else
    match addReport tz body now ctx with
    | (.ok r, ctx1, effs) => (.ok r.id r.database r.submittime, ctx1, effs)
    | (.error _, ctx1, effs) => (.serverError, ctx1, effs)

/-! ## Startup backend selection (backend/index.js part of auth.js) -/

inductive InitOutcome where
  | exit (code : Nat)
  | ready (type : DbType) (isReady : Bool)
deriving DecidableEq, Repr

/-- Embedding of `initDatabase()`.  `dbTypeEnv` is the `DB_TYPE` setting,
`pgProbeOk` the outcome the PostgreSQL connection probe would have; the
second component records whether `initPostgres` was attempted at all. -/
def initDatabase (dbTypeEnv : String) (pgProbeOk : Bool) : InitOutcome × Bool :=
  if dbTypeEnv == "postgres" then
    if pgProbeOk then (.ready .postgres true, true) else (.exit 1, true)
  else if dbTypeEnv == "sqlite" then
    (.ready .sqlite true, false)
  else
    if pgProbeOk then (.ready .postgres true, true) else (.ready .sqlite true, true)

/-! ## Concrete fixtures and claim-side definitions -/

def ctxSqliteFresh : DbContext := ⟨.sqlite, emptyPgState, []⟩

def ctxPostgresFresh : DbContext := ⟨.postgres, emptyPgState, []⟩

def sampleBody : ReportInput := ⟨.num 3, .bool true, .num 5, .str "late", .str "teacherA"⟩

def tNov2023 : Int := 1700000000000

def sqliteDbBoot : SqliteDb := ⟨["reports"], ["idx_month_partition"], [], 1⟩

def pgBoot : PgState := ⟨["reports"], ["reports_month_partition_idx"], [], 1⟩

/-- The row most recently inserted into the store holding partition `ym`
(network engine: the shared table; embedded engine: the partition file). -/
def lastInsertedRow (ctx : DbContext) (ym : String) : Option Row :=
  match ctx.type with
  | .postgres => ctx.pg.rows.getLast?
  | .sqlite =>
    match sqliteLookup ym ctx.dir with
    | some db => db.rows.getLast?
    | none => none

/-- The rows of partition `ym` as stored in context `ctx`. -/
def partitionRows (ctx : DbContext) (ym : String) : List Row :=
  match ctx.type with
  | .postgres => ctx.pg.rows.filter (fun r => r.month_partition == ym)
  | .sqlite =>
    match sqliteLookup ym ctx.dir with
    | some db => db.rows.filter (fun r => r.month_partition == ym)
    | none => []

/-- Strictly-descending `submittime`, executable form. -/
def sortedStrictDescB : List Row → Bool
  | [] => true
  | [_] => true
  | a :: b :: t => decide (b.submittime < a.submittime) && sortedStrictDescB (b :: t)

/-- The claim's ordering, as stated: strictly descending `submittime`. -/
def sortedStrictDesc (l : List Row) : Prop := sortedStrictDescB l = true

def ctxAfterOne : DbContext := (postInputdata 0 ctxSqliteFresh sampleBody tNov2023).2.1

def ctxAfterTwo : DbContext := (postInputdata 0 ctxAfterOne sampleBody tNov2023).2.1

def repr4Ok (k : Nat) : Bool := (Nat.repr (1000 + k)).length == 4

/-- The format the spec asserts: exactly four digits, a hyphen, two digits. -/
def isFourDigitYearMonth (s : String) : Bool :=
  match s.data with
  | [a, b, c, d, e, f, g] =>
    a.isDigit && b.isDigit && c.isDigit && d.isDigit && e == '-' && f.isDigit && g.isDigit
  | _ => false

/-- Timestamp 10000-01-11T00:00:00Z in epoch milliseconds — a valid ECMAScript time value
(well within ±8.64e15), whose local calendar year has five digits for every
real-world zone offset. -/
def tYear10000 : Int := 253403164800000

/-! ## Theorems: calendar correctness, store lemmas, and claim properties -/

theorem yoeNum_step (n : Nat) : yoeNum n ≤ yoeNum (n + 1) := by
  unfold yoeNum; omega

theorem cfdYoe_mono : Monotone cfdYoe :=
  monotone_nat_of_le_succ fun n => Nat.div_le_div_right (yoeNum_step n)

theorem allRange_spec (f : Nat → Bool) :
    ∀ (fuel lo n : Nat), allRange f fuel lo n = true → ∀ k, k < n → f (lo + k) = true := by
  intro fuel
  induction fuel with
  | zero =>
    intro lo n h k hk
    simp only [allRange, beq_iff_eq] at h
    omega
  | succ fuel ih =>
    intro lo n h k hk
    simp only [allRange] at h
    by_cases h0 : n = 0
    · omega
    · by_cases h1 : n = 1
      · subst h1
        simp at h
        have hk0 : k = 0 := by omega
        subst hk0
        simpa using h
      · simp only [beq_iff_eq, h0, h1, if_false, Bool.and_eq_true] at h
        by_cases hk2 : k < n / 2
        · exact ih lo (n / 2) h.1 k hk2
        · have hrec := ih (lo + n / 2) (n - n / 2) h.2 (k - n / 2) (by omega)
          have e : lo + n / 2 + (k - n / 2) = lo + k := by omega
          rwa [e] at hrec

set_option maxRecDepth 10000 in
theorem endsCheck : allRange endsOk 10 0 400 = true := by decide

theorem endsOk_all (yoe : Nat) (h : yoe < 400) :
    cfdYoe (eraYearStartFull yoe) = yoe ∧ cfdYoe (eraYearStartFull (yoe + 1) - 1) = yoe := by
  have := allRange_spec endsOk 10 0 400 endsCheck yoe h
  simp only [Nat.zero_add, endsOk, Bool.and_eq_true, beq_iff_eq] at this
  exact this

theorem yoe_correct (doe : Nat) (hdoe : doe ≤ 146096) :
    eraYearStartFull (cfdYoe doe) ≤ doe ∧ doe < eraYearStartFull (cfdYoe doe + 1) ∧
      cfdYoe doe ≤ 399 := by
  have htop : cfdYoe 146096 = 399 := by
    have := (endsOk_all 399 (by norm_num)).2
    norm_num [eraYearStartFull] at this ⊢
    exact this
  have h399 : cfdYoe doe ≤ 399 := htop ▸ cfdYoe_mono hdoe
  refine ⟨?_, ?_, h399⟩
  · by_contra hlt
    push_neg at hlt
    rcases Nat.eq_zero_or_pos (cfdYoe doe) with h0 | hpos
    · rw [h0] at hlt
      simp [eraYearStartFull] at hlt
    · have hle : doe ≤ eraYearStartFull (cfdYoe doe) - 1 := by omega
      have hmono := cfdYoe_mono hle
      have hend := (endsOk_all (cfdYoe doe - 1) (by omega)).2
      have : cfdYoe doe - 1 + 1 = cfdYoe doe := by omega
      rw [this] at hend
      rw [hend] at hmono
      omega
  · by_contra hge
    push_neg at hge
    by_cases hlast : cfdYoe doe + 1 ≤ 399
    · have hend := (endsOk_all (cfdYoe doe + 1) (by omega)).1
      have hmono := cfdYoe_mono hge
      rw [hend] at hmono
      omega
    · have h3 : cfdYoe doe = 399 := by omega
      rw [h3] at hge
      have h4 : eraYearStartFull (399 + 1) = 146097 := by norm_num [eraYearStartFull]
      omega

theorem isLeapYear_iff (y : Int) :
    isLeapYear y = true ↔ ((y % 4 = 0 ∧ ¬y % 100 = 0) ∨ y % 400 = 0) := by
  simp [isLeapYear]

/-! The assembled correctness statement. -/

theorem march1 (era : Int) (yoe : Nat) (h399 : yoe ≤ 399) :
    specMonthStartDay (era * 400 + (yoe : Int)) 3 =
      era * 146097 + ((365 * yoe + yoe / 4 - yoe / 100 : Nat) : Int) - 719468 := by
  have hiff : isLeapYear (era * 400 + (yoe : Int)) = true ↔
      (((era * 400 + (yoe : Int)) % 4 = 0 ∧ ¬(era * 400 + (yoe : Int)) % 100 = 0) ∨
        (era * 400 + (yoe : Int)) % 400 = 0) := by
    simp [isLeapYear]
  cases hB : isLeapYear (era * 400 + (yoe : Int)) with
  | false =>
    rw [hB] at hiff
    simp only [Bool.false_eq_true, false_iff] at hiff
    push_neg at hiff
    simp only [specMonthStartDay, specYearStartDay, daysBeforeMonthInYear, hB]
    norm_num
    omega
  | true =>
    replace hiff := hiff.mp hB
    simp only [specMonthStartDay, specYearStartDay, daysBeforeMonthInYear, hB]
    norm_num
    omega

theorem monthStartOffsets (Y : Int) :
    specMonthStartDay Y 4 = specMonthStartDay Y 3 + 31 ∧
    specMonthStartDay Y 5 = specMonthStartDay Y 3 + 61 ∧
    specMonthStartDay Y 6 = specMonthStartDay Y 3 + 92 ∧
    specMonthStartDay Y 7 = specMonthStartDay Y 3 + 122 ∧
    specMonthStartDay Y 8 = specMonthStartDay Y 3 + 153 ∧
    specMonthStartDay Y 9 = specMonthStartDay Y 3 + 184 ∧
    specMonthStartDay Y 10 = specMonthStartDay Y 3 + 214 ∧
    specMonthStartDay Y 11 = specMonthStartDay Y 3 + 245 ∧
    specMonthStartDay Y 12 = specMonthStartDay Y 3 + 275 := by
  cases hB : isLeapYear Y <;>
    simp only [specMonthStartDay, specYearStartDay, daysBeforeMonthInYear, hB] <;>
    norm_num <;> omega

theorem janFebStart (Y : Int) :
    specMonthStartDay (Y + 1) 1 = specMonthStartDay Y 3 + 306 ∧
    specMonthStartDay (Y + 1) 2 = specMonthStartDay Y 3 + 337 := by
  have hiff : isLeapYear Y = true ↔ ((Y % 4 = 0 ∧ ¬Y % 100 = 0) ∨ Y % 400 = 0) := by
    simp [isLeapYear]
  cases hB : isLeapYear Y with
  | false =>
    rw [hB] at hiff
    simp only [Bool.false_eq_true, false_iff] at hiff
    push_neg at hiff
    simp only [specMonthStartDay, specYearStartDay, daysBeforeMonthInYear, hB]
    norm_num
    omega
  | true =>
    replace hiff := hiff.mp hB
    simp only [specMonthStartDay, specYearStartDay, daysBeforeMonthInYear, hB]
    norm_num
    omega

theorem febLen (era : Int) (yoe : Nat) (h399 : yoe ≤ 399) :
    (monthLength (era * 400 + (yoe : Int) + 1) 2 = 28 ∧
      365 * (yoe + 1) + (yoe + 1) / 4 - (yoe + 1) / 100 + (yoe + 1) / 400 ≤
        365 * yoe + yoe / 4 - yoe / 100 + yoe / 400 + 365) ∨
    (monthLength (era * 400 + (yoe : Int) + 1) 2 = 29 ∧
      365 * (yoe + 1) + (yoe + 1) / 4 - (yoe + 1) / 100 + (yoe + 1) / 400 ≤
        365 * yoe + yoe / 4 - yoe / 100 + yoe / 400 + 366) := by
  have hiff : isLeapYear (era * 400 + (yoe : Int) + 1) = true ↔
      (((era * 400 + (yoe : Int) + 1) % 4 = 0 ∧ ¬(era * 400 + (yoe : Int) + 1) % 100 = 0) ∨
        (era * 400 + (yoe : Int) + 1) % 400 = 0) := by
    simp [isLeapYear]
  cases hB : isLeapYear (era * 400 + (yoe : Int) + 1) with
  | false =>
    rw [hB] at hiff
    simp only [Bool.false_eq_true, false_iff] at hiff
    push_neg at hiff
    left
    constructor
    · simp [monthLength, hB]
    · omega
  | true =>
    replace hiff := hiff.mp hB
    right
    constructor
    · simp [monthLength, hB]
    · omega

theorem civil_assembleAux (era : Int) (doe yoe doy mp m : Nat) (y : Int)
    (hstart : 365 * yoe + yoe / 4 - yoe / 100 + yoe / 400 ≤ doe)
    (hend : doe < 365 * (yoe + 1) + (yoe + 1) / 4 - (yoe + 1) / 100 + (yoe + 1) / 400)
    (h399 : yoe ≤ 399)
    (hdoyeq : doy = doe - (365 * yoe + yoe / 4 - yoe / 100))
    (hmpeq : mp = (5 * doy + 2) / 153)
    (hm : m = if mp < 10 then mp + 3 else mp - 9)
    (hy : y = if m ≤ 2 then era * 400 + (yoe : Int) + 1 else era * 400 + (yoe : Int)) :
    1 ≤ m ∧ m ≤ 12 ∧
    specMonthStartDay y m ≤ era * 146097 + (doe : Int) - 719468 ∧
    era * 146097 + (doe : Int) - 719468 < specMonthStartDay y m + (monthLength y m : Int) := by
  have hdoy365 : doy ≤ 365 := by
    rcases Nat.lt_or_ge yoe 399 with hyv | hyv
    · omega
    · have h3 : yoe = 399 := by omega
      subst h3
      norm_num at hstart hend
      omega
  have hm1 : (153 * mp + 2) / 5 ≤ doy := by omega
  have hm2 : doy < (153 * (mp + 1) + 2) / 5 := by omega
  have hmp11 : mp ≤ 11 := by omega
  have hA := march1 era yoe h399
  have hz : era * 146097 + (doe : Int) - 719468 =
      specMonthStartDay (era * 400 + (yoe : Int)) 3 + (doy : Int) := by
    rw [hA]
    omega
  have hfeb : (monthLength (era * 400 + (yoe : Int) + 1) 2 = 28 ∧ doy ≤ 364) ∨
      (monthLength (era * 400 + (yoe : Int) + 1) 2 = 29 ∧ doy ≤ 365) := by
    rcases febLen era yoe h399 with ⟨f1, f2⟩ | ⟨f1, f2⟩
    · exact Or.inl ⟨f1, by omega⟩
    · exact Or.inr ⟨f1, by omega⟩
  obtain ⟨o4, o5, o6, o7, o8, o9, o10, o11, o12⟩ := monthStartOffsets (era * 400 + (yoe : Int))
  obtain ⟨j1, j2⟩ := janFebStart (era * 400 + (yoe : Int))
  have l1 : monthLength (era * 400 + (yoe : Int) + 1) 1 = 31 := rfl
  have l3 : monthLength (era * 400 + (yoe : Int)) 3 = 31 := rfl
  have l4 : monthLength (era * 400 + (yoe : Int)) 4 = 30 := rfl
  have l5 : monthLength (era * 400 + (yoe : Int)) 5 = 31 := rfl
  have l6 : monthLength (era * 400 + (yoe : Int)) 6 = 30 := rfl
  have l7 : monthLength (era * 400 + (yoe : Int)) 7 = 31 := rfl
  have l8 : monthLength (era * 400 + (yoe : Int)) 8 = 31 := rfl
  have l9 : monthLength (era * 400 + (yoe : Int)) 9 = 30 := rfl
  have l10 : monthLength (era * 400 + (yoe : Int)) 10 = 31 := rfl
  have l11 : monthLength (era * 400 + (yoe : Int)) 11 = 30 := rfl
  have l12 : monthLength (era * 400 + (yoe : Int)) 12 = 31 := rfl
  clear hstart hend hdoyeq hdoy365 hA hmpeq h399
  interval_cases mp
  all_goals norm_num at hm
  all_goals subst hm
  all_goals norm_num at hy
  all_goals subst hy
  all_goals try rcases hfeb with ⟨f1, f2⟩ | ⟨f1, f2⟩
  all_goals omega

theorem civil_assemble (era : Int) (doe : Nat) (hdoe : doe ≤ 146096) :
    1 ≤ cfdMonth doe ∧ cfdMonth doe ≤ 12 ∧
    specMonthStartDay (civilYear era doe) (cfdMonth doe) ≤ era * 146097 + (doe : Int) - 719468 ∧
    era * 146097 + (doe : Int) - 719468 <
      specMonthStartDay (civilYear era doe) (cfdMonth doe) +
        (monthLength (civilYear era doe) (cfdMonth doe) : Int) := by
  obtain ⟨hstart, hend, h399⟩ := yoe_correct doe hdoe
  unfold eraYearStartFull at hstart hend
  exact civil_assembleAux era doe (cfdYoe doe) (cfdDoy doe) (cfdMp doe) (cfdMonth doe)
    (civilYear era doe) hstart hend h399 rfl rfl rfl rfl

theorem civilFromDays_correct (z : Int) :
    1 ≤ (civilFromDays z).2 ∧ (civilFromDays z).2 ≤ 12 ∧
    specMonthStartDay (civilFromDays z).1 (civilFromDays z).2 ≤ z ∧
    z < specMonthStartDay (civilFromDays z).1 (civilFromDays z).2 +
      (monthLength (civilFromDays z).1 (civilFromDays z).2 : Int) := by
  have hdoe : cfdDoe z ≤ 146096 := by
    unfold cfdDoe
    omega
  have hz : cfdEra z * 146097 + ((cfdDoe z : Nat) : Int) - 719468 = z := by
    unfold cfdEra cfdDoe
    omega
  have h := civil_assemble (cfdEra z) (cfdDoe z) hdoe
  rw [hz] at h
  simpa [civilFromDays] using h

theorem sqliteLookup_set_self (ym : String) (db : SqliteDb) :
    ∀ dir, sqliteLookup ym (sqliteSet ym db dir) = some db := by
  intro dir
  induction dir with
  | nil => simp [sqliteSet, sqliteLookup]
  | cons hd tl ih =>
    obtain ⟨k, d⟩ := hd
    by_cases hk : k == ym
    · simp [sqliteSet, sqliteLookup, hk]
    · simp only [sqliteSet, sqliteLookup, hk, if_false, Bool.false_eq_true]
      exact ih

theorem ensureSqliteTable_hasTable (db db' : SqliteDb)
    (h : ensureSqliteTable db = .ok db') :
    db'.tables.contains "reports" = true ∧ db'.indexes.contains "idx_month_partition" = true := by
  unfold ensureSqliteTable sqliteExecCreateTable sqliteIndexExists sqliteExecCreateIndex at h
  by_cases hc : db.tables.contains "reports"
  · simp only [hc, if_true] at h
    by_cases hi : db.indexes.contains "idx_month_partition"
    · simp only [hi, if_true, Except.ok.injEq] at h
      subst h
      exact ⟨hc, hi⟩
    · simp only [hi, if_false, Bool.false_eq_true, Except.ok.injEq] at h
      subst h
      refine ⟨hc, ?_⟩
      simp
  · simp only [hc, if_false, Bool.false_eq_true] at h
    by_cases hi : db.indexes.contains "idx_month_partition"
    · simp only [hi, if_true, Except.ok.injEq] at h
      subst h
      refine ⟨by simp, hi⟩
    · simp only [hi, if_false, Bool.false_eq_true, Except.ok.injEq] at h
      subst h
      refine ⟨by simp, by simp⟩

theorem getSqliteDatabase_spec (ym : String) (dir : List (String × SqliteDb))
    (db : SqliteDb) (dir' : List (String × SqliteDb))
    (h : getSqliteDatabase ym dir = .ok (db, dir')) :
    db.tables.contains "reports" = true ∧ dir' = sqliteSet ym db dir := by
  simp only [getSqliteDatabase] at h
  cases he : ensureSqliteTable ((sqliteLookup ym dir).getD emptySqliteDb) with
  | error e => rw [he] at h; cases h
  | ok db1 =>
    rw [he] at h
    simp only [Except.ok.injEq, Prod.mk.injEq] at h
    obtain ⟨h1, h2⟩ := h
    subst h1
    exact ⟨(ensureSqliteTable_hasTable _ _ he).1, h2.symm⟩

/-- The required-field guard of `POST /inputdata`, shared by several claims. -/
theorem postInputdata_guard (tz : Int) (ctx : DbContext) (body : ReportInput) (now : Int)
    (h : (!jsTruthy body.classNum || body.isadd == JSValue.undefined ||
          !jsTruthy body.changescore || !jsTruthy body.note || !jsTruthy body.submitter) = true) :
    postInputdata tz ctx body now = (.badRequest, ctx, []) := by
  unfold postInputdata
  rw [h]
  rfl

/-- C4: with `DB_TYPE=postgres` a failing probe makes the process exit fatally
(code 1) instead of falling back; with `DB_TYPE=sqlite` the PostgreSQL probe is
never attempted (second component `false`) and the embedded engine is recorded
active; with `DB_TYPE=auto` a failing probe falls back to the embedded engine,
records it active and ready. -/
theorem initDatabase_backend_selection :
    initDatabase "postgres" false = (.exit 1, true) ∧
    (∀ probe : Bool, initDatabase "sqlite" probe = (.ready .sqlite true, false)) ∧
    initDatabase "auto" false = (.ready .sqlite true, true) :=
  ⟨rfl, fun _ => rfl, rfl⟩

/-- C7: a Submit request with a missing (or otherwise falsy) required field —
in particular a missing `note` — is rejected with a validation failure before
any engine interaction: the backend state is unchanged and the effect trace is
empty (no bootstrap, no insert, no connection). -/
theorem inputdata_validation_failure_is_pure (tz : Int) (ctx : DbContext)
    (body : ReportInput) (now : Int)
    (h : jsTruthy body.classNum = false ∨ body.isadd = JSValue.undefined ∨
         jsTruthy body.changescore = false ∨ jsTruthy body.note = false ∨
         jsTruthy body.submitter = false) :
    postInputdata tz ctx body now = (.badRequest, ctx, []) := by
  apply postInputdata_guard
  rcases h with h | h | h | h | h <;> simp [h]

/-- Witness for C7: submitting `sampleBody` without its `note` field. -/
theorem inputdata_validation_failure_is_pure_witness :
    postInputdata 0 ctxSqliteFresh
      { sampleBody with note := .undefined } tNov2023 = (.badRequest, ctxSqliteFresh, []) :=
  inputdata_validation_failure_is_pure 0 ctxSqliteFresh _ tNov2023
    (Or.inr (Or.inr (Or.inr (Or.inl rfl))))

/-- C10: a Submit whose `class` is the integer 0, or whose `changescore` is
the integer 0, is rejected with a validation failure even though the field is
present and integer-valued — the guard tests truthiness, and `0` is falsy. -/
theorem inputdata_rejects_integer_zero (tz : Int) (ctx : DbContext) (now : Int)
    (cn ia cs nt sb : JSValue) :
    postInputdata tz ctx ⟨.num 0, ia, cs, nt, sb⟩ now = (.badRequest, ctx, []) ∧
    postInputdata tz ctx ⟨cn, ia, .num 0, nt, sb⟩ now = (.badRequest, ctx, []) := by
  constructor <;> (apply postInputdata_guard; simp [jsTruthy])

/-- C6: both schema bootstrappers are idempotent: when a first invocation
succeeds, a second invocation on the resulting state succeeds and is the
identity, and neither table nor index is ever duplicated (the count after
never exceeds `max (count before) 1`). -/
theorem schema_bootstrap_idempotent :
    (∀ db db', ensureSqliteTable db = .ok db' →
      ensureSqliteTable db' = .ok db' ∧
      db'.tables.count "reports" ≤ max (db.tables.count "reports") 1 ∧
      db'.indexes.count "idx_month_partition" ≤ max (db.indexes.count "idx_month_partition") 1) ∧
    (∀ pg pg', ensurePostgresTable pg = .ok pg' →
      ensurePostgresTable pg' = .ok pg' ∧
      pg'.tables.count "reports" ≤ max (pg.tables.count "reports") 1 ∧
      pg'.indexes.count "reports_month_partition_idx" ≤
        max (pg.indexes.count "reports_month_partition_idx") 1) := by
  constructor
  · intro db db' h
    unfold ensureSqliteTable sqliteExecCreateTable sqliteIndexExists sqliteExecCreateIndex at h ⊢
    by_cases hc : db.tables.contains "reports"
    · simp only [hc, if_true] at h
      by_cases hi : db.indexes.contains "idx_month_partition"
      · simp only [hi, if_true, Except.ok.injEq] at h
        subst h
        simp only [hc, if_true, hi]
        refine ⟨by trivial, Nat.le_max_left _ _, Nat.le_max_left _ _⟩
      · simp only [hi, if_false, Bool.false_eq_true, Except.ok.injEq] at h
        subst h
        have hmem : "idx_month_partition" ∉ db.indexes := by
          simpa using hi
        have hcount : db.indexes.count "idx_month_partition" = 0 :=
          List.count_eq_zero.mpr hmem
        simp only [hc, if_true]
        have hig : (db.indexes ++ ["idx_month_partition"]).contains "idx_month_partition" = true := by
          simp
        simp only [hig, if_true]
        refine ⟨by trivial, Nat.le_max_left _ _, ?_⟩
        simp [List.count_append, hcount]
    · simp only [hc, if_false, Bool.false_eq_true] at h
      have hmemt : "reports" ∉ db.tables := by simpa using hc
      have hcountt : db.tables.count "reports" = 0 := List.count_eq_zero.mpr hmemt
      have hctg : (db.tables ++ ["reports"]).contains "reports" = true := by simp
      by_cases hi : db.indexes.contains "idx_month_partition"
      · simp only [hi, if_true, Except.ok.injEq] at h
        subst h
        simp only [hctg, if_true, hi]
        refine ⟨by trivial, ?_, Nat.le_max_left _ _⟩
        simp [List.count_append, hcountt]
      · simp only [hi, if_false, Bool.false_eq_true, Except.ok.injEq] at h
        subst h
        have hmem : "idx_month_partition" ∉ db.indexes := by simpa using hi
        have hcount : db.indexes.count "idx_month_partition" = 0 :=
          List.count_eq_zero.mpr hmem
        have hig : (db.indexes ++ ["idx_month_partition"]).contains "idx_month_partition" = true := by
          simp
        simp only [hctg, if_true, hig]
        refine ⟨by trivial, ?_, ?_⟩
        · simp [List.count_append, hcountt]
        · simp [List.count_append, hcount]
  · intro pg pg' h
    unfold ensurePostgresTable pgTableExists pgCreateTable pgCreateIndex at h ⊢
    by_cases hc : pg.tables.contains "reports"
    · simp only [hc, if_true, Except.ok.injEq] at h
      subst h
      simp only [hc, if_true]
      refine ⟨by trivial, Nat.le_max_left _ _, Nat.le_max_left _ _⟩
    · simp only [hc, if_false, Bool.false_eq_true] at h
      have hmemt : "reports" ∉ pg.tables := by simpa using hc
      have hcountt : pg.tables.count "reports" = 0 := List.count_eq_zero.mpr hmemt
      by_cases hx : pg.indexes.contains "reports_month_partition_idx"
      · simp only [hx, if_true] at h
        cases h
      · simp only [hx, if_false, Bool.false_eq_true, Except.ok.injEq] at h
        subst h
        have hmem : "reports_month_partition_idx" ∉ pg.indexes := by simpa using hx
        have hcount : pg.indexes.count "reports_month_partition_idx" = 0 :=
          List.count_eq_zero.mpr hmem
        have hctg : (pg.tables ++ ["reports"]).contains "reports" = true := by simp
        simp only [hctg, if_true]
        refine ⟨by trivial, ?_, ?_⟩
        · simp [List.count_append, hcountt]
        · simp [List.count_append, hcount]

/-- Witness for C6: the state reached by bootstrapping a fresh file / a fresh
shared database is a fixpoint of the bootstrapper, without duplicates. -/
theorem schema_bootstrap_idempotent_witness :
    (ensureSqliteTable sqliteDbBoot = .ok sqliteDbBoot ∧
      sqliteDbBoot.tables.count "reports" ≤ max (emptySqliteDb.tables.count "reports") 1 ∧
      sqliteDbBoot.indexes.count "idx_month_partition" ≤
        max (emptySqliteDb.indexes.count "idx_month_partition") 1) ∧
    (ensurePostgresTable pgBoot = .ok pgBoot ∧
      pgBoot.tables.count "reports" ≤ max (emptyPgState.tables.count "reports") 1 ∧
      pgBoot.indexes.count "reports_month_partition_idx" ≤
        max (emptyPgState.indexes.count "reports_month_partition_idx") 1) :=
  ⟨schema_bootstrap_idempotent.1 emptySqliteDb sqliteDbBoot rfl,
   schema_bootstrap_idempotent.2 emptyPgState pgBoot rfl⟩

/-- C3: querying a partition with zero prior submissions yields `.ok []` on
both engines, never an error.  On the embedded engine a fresh partition (no
database file yet) is bootstrapped and the zero matching rows are returned;
on the network engine the shared table is bootstrapped when absent and the
filter matches zero rows.  `hwf` excludes the unreachable network-engine state
in which the index exists but its table does not. -/
theorem query_empty_partition_ok (ym : String) (dir : List (String × SqliteDb)) (pg : PgState)
    (hs : sqliteLookup ym dir = none)
    (hp : pg.rows.filter (fun r => r.month_partition == ym) = [])
    (hwf : pg.tables.contains "reports" = true ∨
      pg.indexes.contains "reports_month_partition_idx" = false) :
    (getReportsByMonth ym ⟨.sqlite, pg, dir⟩).1 = .ok [] ∧
    (getReportsByMonth ym ⟨.postgres, pg, dir⟩).1 = .ok [] := by
  constructor
  · simp only [getReportsByMonth, getSqliteDatabase, hs]
    rfl
  · simp only [getReportsByMonth]
    by_cases hc : pg.tables.contains "reports"
    · simp only [ensurePostgresTable, pgTableExists, hc, if_true, hp]
      rfl
    · have hx : pg.indexes.contains "reports_month_partition_idx" = false := by
        rcases hwf with hwf | hwf
        · exact absurd hwf hc
        · exact hwf
      simp only [ensurePostgresTable, pgTableExists, pgCreateTable, pgCreateIndex, hc, hx,
        if_false, Bool.false_eq_true, if_true]
      rfl

/-- Witness for C3: the spec scenario — querying `2099-01` against fresh
stores. -/
theorem query_empty_partition_ok_witness :
    (getReportsByMonth "2099-01" ⟨.sqlite, emptyPgState, []⟩).1 = .ok [] ∧
    (getReportsByMonth "2099-01" ⟨.postgres, emptyPgState, []⟩).1 = .ok [] :=
  query_empty_partition_ok "2099-01" [] emptyPgState rfl rfl (Or.inr rfl)

/-- C9: on the embedded engine, a query on a not-yet-existing partition store
is not effect-free: it creates the partition database file, its `reports`
table and the partition index before returning the empty result, and the
table-existence probe the query then performs always succeeds (so the early
`[]` return for a missing table is unreachable — the trace takes the query
path `sqliteQuery`). -/
theorem sqlite_query_bootstraps_store (ym : String) (pg : PgState)
    (dir : List (String × SqliteDb)) (hs : sqliteLookup ym dir = none) :
    ∃ db dir',
      getReportsByMonth ym ⟨.sqlite, pg, dir⟩ =
        (.ok [], ⟨.sqlite, pg, dir'⟩,
          [.sqliteOpen (sqliteFileName ym), .sqliteEnsureTable, .sqliteQuery]) ∧
      sqliteLookup ym dir' = some db ∧
      db.tables.contains "reports" = true ∧
      db.indexes.contains "idx_month_partition" = true ∧
      (∀ dir2 db2 dir2', getSqliteDatabase ym dir2 = .ok (db2, dir2') →
        db2.tables.contains "reports" = true) := by
  refine ⟨⟨["reports"], ["idx_month_partition"], [], 1⟩,
    sqliteSet ym ⟨["reports"], ["idx_month_partition"], [], 1⟩ dir, ?_, ?_, rfl, rfl, ?_⟩
  · simp only [getReportsByMonth, getSqliteDatabase, hs]
    rfl
  · exact sqliteLookup_set_self ym _ dir
  · intro dir2 db2 dir2' h
    exact (getSqliteDatabase_spec ym dir2 db2 dir2' h).1

/-- Witness for C9: the fresh directory and partition `2099-01`. -/
theorem sqlite_query_bootstraps_store_witness :
    ∃ db dir',
      getReportsByMonth "2099-01" ⟨.sqlite, emptyPgState, []⟩ =
        (.ok [], ⟨.sqlite, emptyPgState, dir'⟩,
          [.sqliteOpen (sqliteFileName "2099-01"), .sqliteEnsureTable, .sqliteQuery]) ∧
      sqliteLookup "2099-01" dir' = some db ∧
      db.tables.contains "reports" = true ∧
      db.indexes.contains "idx_month_partition" = true ∧
      (∀ dir2 db2 dir2', getSqliteDatabase "2099-01" dir2 = .ok (db2, dir2') →
        db2.tables.contains "reports" = true) :=
  sqlite_query_bootstraps_store "2099-01" emptyPgState [] rfl

/-- C1: whenever `addReport` succeeds — on either engine — the persisted row's
`month_partition` equals `getMonthPartition` of the row's own persisted
`submittime`, and that same `submittime` (and partition) is what is returned
to the caller. -/
theorem addReport_partition_consistent (tz : Int) (data : ReportInput) (now : Int)
    (ctx : DbContext) (res : AddResult) (ctx' : DbContext) (effs : List DbEffect)
    (h : addReport tz data now ctx = (.ok res, ctx', effs)) :
    ∃ r : Row, lastInsertedRow ctx' res.database = some r ∧
      r.month_partition = getMonthPartition tz r.submittime ∧
      res.submittime = r.submittime ∧
      res.database = r.month_partition := by
  simp only [addReport] at h
  cases hty : ctx.type with
  | postgres =>
    rw [hty] at h
    cases hen : ensurePostgresTable ctx.pg with
    | error e => rw [hen] at h; simp at h
    | ok pg1 =>
      rw [hen] at h
      cases hc : parseIntJS data.classNum with
      | none => rw [hc] at h; simp at h
      | some c =>
        rw [hc] at h
        cases hcs : parseIntJS data.changescore with
        | none => rw [hcs] at h; simp at h
        | some sc =>
          rw [hcs] at h
          cases hb : bindableText data.note && bindableText data.submitter with
          | false => rw [hb] at h; simp at h
          | true =>
            rw [hb] at h
            simp only [if_true, Prod.mk.injEq, Except.ok.injEq] at h
            obtain ⟨h1, h2, h3⟩ := h
            subst h1
            subst h2
            refine
              ⟨{ id := pg1.nextId, classNum := c,
                 isadd := JSValue.bool (jsToBoolean data.isadd), changescore := sc,
                 submittime := now, note := data.note, submitter := data.submitter,
                 month_partition := getMonthPartition tz now }, ?_, rfl, rfl, rfl⟩
            simp [lastInsertedRow, hty, List.getLast?_concat]
  | sqlite =>
    rw [hty] at h
    cases hg : getSqliteDatabase (getMonthPartition tz now) ctx.dir with
    | error e => rw [hg] at h; simp at h
    | ok p =>
      obtain ⟨db, dir1⟩ := p
      rw [hg] at h
      cases hc : parseIntJS data.classNum with
      | none => rw [hc] at h; simp at h
      | some c =>
        rw [hc] at h
        cases hcs : parseIntJS data.changescore with
        | none => rw [hcs] at h; simp at h
        | some sc =>
          rw [hcs] at h
          cases hb : bindableText data.note && bindableText data.submitter with
          | false => rw [hb] at h; simp at h
          | true =>
            rw [hb] at h
            simp only [if_true, Prod.mk.injEq, Except.ok.injEq] at h
            obtain ⟨h1, h2, h3⟩ := h
            subst h1
            subst h2
            refine
              ⟨{ id := db.nextId, classNum := c,
                 isadd := JSValue.num (if jsToBoolean data.isadd then 1 else 0),
                 changescore := sc, submittime := now, note := data.note,
                 submitter := data.submitter,
                 month_partition := getMonthPartition tz now }, ?_, rfl, rfl, rfl⟩
            simp only [lastInsertedRow, hty, sqliteLookup_set_self]
            simp [List.getLast?_concat]

/-- Witness for C1: a concrete successful submission on the embedded engine. -/
theorem addReport_partition_consistent_witness :
    ∃ res ctx' effs,
      addReport 0 sampleBody tNov2023 ctxSqliteFresh = (.ok res, ctx', effs) ∧
      ∃ r : Row, lastInsertedRow ctx' res.database = some r ∧
        r.month_partition = getMonthPartition 0 r.submittime ∧
        res.submittime = r.submittime ∧
        res.database = r.month_partition :=
  ⟨_, _, _, rfl, addReport_partition_consistent 0 sampleBody tNov2023 ctxSqliteFresh _ _ _ rfl⟩

/-- C2: Submit with `isadd` explicitly `false` passes validation (the guard
tests `isadd === undefined`, not truthiness) and persists a falsy value in the
engine's native representation — the integer `0` on the embedded engine, the
boolean `false` on the network engine — whereas Submit with `isadd` absent
(`undefined`) is rejected by validation with no state change. -/
theorem submit_isadd_false_vs_missing :
    (∀ (tz now : Int) (pg : PgState) (dir : List (String × SqliteDb)) (cn cs : Int)
        (nt sb : String),
        cn ≠ 0 → cs ≠ 0 → nt ≠ "" → sb ≠ "" →
        sqliteLookup (getMonthPartition tz now) dir = none →
        ∃ ctx' effs db r,
          postInputdata tz ⟨.sqlite, pg, dir⟩
              ⟨.num cn, .bool false, .num cs, .str nt, .str sb⟩ now
            = (.ok 1 (getMonthPartition tz now) now, ctx', effs) ∧
          sqliteLookup (getMonthPartition tz now) ctx'.dir = some db ∧
          db.rows.getLast? = some r ∧ r.isadd = .num 0) ∧
    (∀ (tz now : Int) (pg : PgState) (dir : List (String × SqliteDb)) (cn cs : Int)
        (nt sb : String),
        cn ≠ 0 → cs ≠ 0 → nt ≠ "" → sb ≠ "" →
        pg.tables.contains "reports" = true →
        ∃ ctx' effs r,
          postInputdata tz ⟨.postgres, pg, dir⟩
              ⟨.num cn, .bool false, .num cs, .str nt, .str sb⟩ now
            = (.ok pg.nextId (getMonthPartition tz now) now, ctx', effs) ∧
          ctx'.pg.rows.getLast? = some r ∧ r.isadd = .bool false) ∧
    (∀ (tz : Int) (ctx : DbContext) (body : ReportInput) (now : Int),
        body.isadd = JSValue.undefined →
        postInputdata tz ctx body now = (.badRequest, ctx, [])) := by
  refine ⟨?_, ?_, ?_⟩
  · intro tz now pg dir cn cs nt sb hcn hcs hnt hsb hs
    have hcond : (!jsTruthy (JSValue.num cn) || (JSValue.bool false == JSValue.undefined) ||
        !jsTruthy (JSValue.num cs) || !jsTruthy (JSValue.str nt) ||
        !jsTruthy (JSValue.str sb)) = false := by
      simp [jsTruthy, hcn, hcs, hnt, hsb]
    refine
      ⟨⟨.sqlite, pg,
         sqliteSet (getMonthPartition tz now)
           { tables := ["reports"], indexes := ["idx_month_partition"],
             rows := [{ id := 1, classNum := cn, isadd := JSValue.num 0,
                        changescore := cs, submittime := now, note := JSValue.str nt,
                        submitter := JSValue.str sb,
                        month_partition := getMonthPartition tz now }],
             nextId := 2 }
           (sqliteSet (getMonthPartition tz now)
             { tables := ["reports"], indexes := ["idx_month_partition"],
               rows := [], nextId := 1 } dir)⟩,
       [.sqliteOpen (sqliteFileName (getMonthPartition tz now)), .sqliteEnsureTable,
        .sqliteInsert],
       { tables := ["reports"], indexes := ["idx_month_partition"],
         rows := [{ id := 1, classNum := cn, isadd := JSValue.num 0,
                    changescore := cs, submittime := now, note := JSValue.str nt,
                    submitter := JSValue.str sb,
                    month_partition := getMonthPartition tz now }],
         nextId := 2 },
       { id := 1, classNum := cn, isadd := JSValue.num 0,
         changescore := cs, submittime := now, note := JSValue.str nt,
         submitter := JSValue.str sb, month_partition := getMonthPartition tz now },
       ?_, ?_, rfl, rfl⟩
    · simp only [postInputdata, hcond, Bool.false_eq_true, if_false, addReport,
        getSqliteDatabase, hs]
      rfl
    · exact sqliteLookup_set_self _ _ _
  · intro tz now pg dir cn cs nt sb hcn hcs hnt hsb hc
    have hcond : (!jsTruthy (JSValue.num cn) || (JSValue.bool false == JSValue.undefined) ||
        !jsTruthy (JSValue.num cs) || !jsTruthy (JSValue.str nt) ||
        !jsTruthy (JSValue.str sb)) = false := by
      simp [jsTruthy, hcn, hcs, hnt, hsb]
    refine
      ⟨⟨.postgres,
         { pg with
            rows := pg.rows ++
              [{ id := pg.nextId, classNum := cn, isadd := JSValue.bool false,
                 changescore := cs, submittime := now, note := JSValue.str nt,
                 submitter := JSValue.str sb,
                 month_partition := getMonthPartition tz now }],
            nextId := pg.nextId + 1 }, dir⟩,
       [.pgConnect, .pgEnsureTable, .pgInsert],
       { id := pg.nextId, classNum := cn, isadd := JSValue.bool false,
         changescore := cs, submittime := now, note := JSValue.str nt,
         submitter := JSValue.str sb, month_partition := getMonthPartition tz now },
       ?_, ?_, rfl⟩
    · simp only [postInputdata, hcond, Bool.false_eq_true, if_false, addReport,
        ensurePostgresTable, pgTableExists, hc, if_true]
      rfl
    · simp [List.getLast?_concat]
  · intro tz ctx body now h
    apply postInputdata_guard
    simp [h]

/-- Witness for C2: concrete submissions against fresh stores. -/
theorem submit_isadd_false_vs_missing_witness :
    (∃ ctx' effs db r,
      postInputdata 0 ⟨.sqlite, emptyPgState, []⟩
          ⟨.num 3, .bool false, .num 5, .str "late", .str "teacherA"⟩ tNov2023
        = (.ok 1 (getMonthPartition 0 tNov2023) tNov2023, ctx', effs) ∧
      sqliteLookup (getMonthPartition 0 tNov2023) ctx'.dir = some db ∧
      db.rows.getLast? = some r ∧ r.isadd = .num 0) ∧
    (∃ ctx' effs r,
      postInputdata 0 ⟨.postgres, pgBoot, []⟩
          ⟨.num 3, .bool false, .num 5, .str "late", .str "teacherA"⟩ tNov2023
        = (.ok pgBoot.nextId (getMonthPartition 0 tNov2023) tNov2023, ctx', effs) ∧
      ctx'.pg.rows.getLast? = some r ∧ r.isadd = .bool false) ∧
    postInputdata 0 ctxSqliteFresh { sampleBody with isadd := .undefined } tNov2023
      = (.badRequest, ctxSqliteFresh, []) :=
  ⟨submit_isadd_false_vs_missing.1 0 tNov2023 emptyPgState [] 3 5 "late" "teacherA"
      (by decide) (by decide) (by decide) (by decide) rfl,
   submit_isadd_false_vs_missing.2.1 0 tNov2023 pgBoot [] 3 5 "late" "teacherA"
      (by decide) (by decide) (by decide) (by decide) rfl,
   submit_isadd_false_vs_missing.2.2 0 ctxSqliteFresh _ tNov2023 rfl⟩

/-- C5 counterexample: two Submits landing in the same millisecond (both
`Date.now()` values equal `tNov2023`) produce two rows with equal
`submittime`; the partition query then returns them adjacent, so the result
is *not* strictly descending — `ORDER BY submittime DESC` is non-strict on
ties. -/
theorem queryByPartition_not_strictly_descending :
    ∃ rows ctx' effs,
      getReportsByMonth "2023-11" ctxAfterTwo = (.ok rows, ctx', effs) ∧
      rows.length = 2 ∧ ¬ sortedStrictDesc rows := by
  refine ⟨_, _, _, rfl, rfl, ?_⟩
  simp only [sortedStrictDesc]
  decide

/-- C5 (amended): every successful QueryByPartition result is ordered by
`submittime` descending — non-strictly: adjacent rows may tie when two
submissions share a millisecond — and it is a permutation of the partition's
full stored row set (no pagination), on both engines. -/
theorem queryByPartition_sorted_desc (ym : String) (ctx : DbContext) (rows : List Row)
    (ctx' : DbContext) (effs : List DbEffect)
    (h : getReportsByMonth ym ctx = (.ok rows, ctx', effs)) :
    List.Sorted rowDesc rows ∧ rows.Perm (partitionRows ctx' ym) := by
  simp only [getReportsByMonth] at h
  cases hty : ctx.type with
  | postgres =>
    rw [hty] at h
    cases hen : ensurePostgresTable ctx.pg with
    | error e => rw [hen] at h; simp at h
    | ok pg1 =>
      rw [hen] at h
      simp only [Prod.mk.injEq, Except.ok.injEq] at h
      obtain ⟨h1, h2, h3⟩ := h
      subst h1
      subst h2
      constructor
      · exact List.sorted_insertionSort rowDesc _
      · have hperm := List.perm_insertionSort rowDesc
          (pg1.rows.filter (fun r => r.month_partition == ym))
        simpa [partitionRows, hty, orderBySubmittimeDesc] using hperm
  | sqlite =>
    rw [hty] at h
    cases hg : getSqliteDatabase ym ctx.dir with
    | error e => rw [hg] at h; simp at h
    | ok p =>
      obtain ⟨db, dir1⟩ := p
      rw [hg] at h
      obtain ⟨hdb, hdir⟩ := getSqliteDatabase_spec ym ctx.dir db dir1 hg
      simp only [hdb, if_true, Prod.mk.injEq, Except.ok.injEq] at h
      obtain ⟨h1, h2, h3⟩ := h
      subst h1
      subst h2
      constructor
      · exact List.sorted_insertionSort rowDesc _
      · have hperm := List.perm_insertionSort rowDesc
          (db.rows.filter (fun r => r.month_partition == ym))
        have hlook : sqliteLookup ym dir1 = some db := by
          rw [hdir]
          exact sqliteLookup_set_self _ _ _
        simpa [partitionRows, hty, hlook, orderBySubmittimeDesc] using hperm

/-- Witness for C5 (amended): the empty partition query. -/
theorem queryByPartition_sorted_desc_witness :
    ∃ ctx' effs,
      getReportsByMonth "2099-01" ctxSqliteFresh = (.ok [], ctx', effs) ∧
      List.Sorted rowDesc [] ∧ ([] : List Row).Perm (partitionRows ctx' "2099-01") :=
  ⟨_, _, rfl, queryByPartition_sorted_desc "2099-01" ctxSqliteFresh [] _ _ rfl⟩

/-! ## Digit-length facts for the partition string -/

set_option maxRecDepth 10000 in
theorem repr4Check : allRange repr4Ok 20 0 9000 = true := by decide

set_option maxRecDepth 10000 in
theorem natRepr_length4 (n : Nat) (h1 : 1000 ≤ n) (h2 : n ≤ 9999) :
    (Nat.repr n).length = 4 := by
  have := allRange_spec repr4Ok 20 0 9000 repr4Check (n - 1000) (by omega)
  simp only [repr4Ok, Nat.zero_add, beq_iff_eq] at this
  have he : 1000 + (n - 1000) = n := by omega
  rwa [he] at this

theorem intToString_length4 (y : Int) (h1 : 1000 ≤ y) (h2 : y ≤ 9999) :
    (toString y).length = 4 := by
  have hy : y = Int.ofNat y.toNat := (Int.toNat_of_nonneg (by omega)).symm
  rw [hy]
  show (Nat.repr y.toNat).length = 4
  exact natRepr_length4 y.toNat (by omega) (by omega)

theorem pad2_month_length (m : Nat) (h1 : 1 ≤ m) (h2 : m ≤ 12) :
    (padStart2Zero (toString m)).length = 2 := by
  interval_cases m <;> rfl

/-- C8 counterexample: at a valid timestamp in year 10000 the deriver emits a
five-digit year, so the output is not of the asserted four-digit `YYYY-MM`
shape. -/
theorem getMonthPartition_not_always_four_digit :
    getMonthPartition 0 tYear10000 = "10000-01" ∧
    isFourDigitYearMonth (getMonthPartition 0 tYear10000) = false ∧
    (getMonthPartition 0 tYear10000).length ≠ 7 := by
  refine ⟨rfl, rfl, by decide⟩

/-- C8 (amended): the deriver is a pure total function; its output is the
decimal local calendar year, a hyphen, and the two-digit zero-padded month;
the month is in 1..12 and `(year, month)` is exactly the calendar month
containing the timestamp in the (fixed-offset) local time zone, per the
spec-side proleptic-Gregorian month boundaries; and the year field is four
digits — making the full `YYYY-MM` length-7 shape — whenever the local year
lies in 1000..9999 (in particular for all realistic timestamps). -/
theorem getMonthPartition_correct (tz t : Int) :
    getMonthPartition tz t =
      toString (civilFromDays (localDays tz t)).1 ++ "-" ++
        padStart2Zero (toString (civilFromDays (localDays tz t)).2) ∧
    1 ≤ (civilFromDays (localDays tz t)).2 ∧
    (civilFromDays (localDays tz t)).2 ≤ 12 ∧
    specMonthStartDay (civilFromDays (localDays tz t)).1 (civilFromDays (localDays tz t)).2 ≤
      localDays tz t ∧
    localDays tz t <
      specMonthStartDay (civilFromDays (localDays tz t)).1 (civilFromDays (localDays tz t)).2 +
        (monthLength (civilFromDays (localDays tz t)).1 (civilFromDays (localDays tz t)).2 : Int) ∧
    (padStart2Zero (toString (civilFromDays (localDays tz t)).2)).length = 2 ∧
    (1000 ≤ (civilFromDays (localDays tz t)).1 → (civilFromDays (localDays tz t)).1 ≤ 9999 →
      (getMonthPartition tz t).length = 7) := by
  obtain ⟨h1, h2, h3, h4⟩ := civilFromDays_correct (localDays tz t)
  refine ⟨rfl, h1, h2, h3, h4, pad2_month_length _ h1 h2, ?_⟩
  intro hy1 hy2
  have hlen4 := intToString_length4 _ hy1 hy2
  have hpad := pad2_month_length _ h1 h2
  show (toString (civilFromDays (localDays tz t)).1 ++ "-" ++
      padStart2Zero (toString (civilFromDays (localDays tz t)).2)).length = 7
  simp [String.length_append, hlen4, hpad]
  rfl

/-- Witness for C8 (amended): a 2023 timestamp yields the length-7 shape. -/
theorem getMonthPartition_correct_witness :
    (getMonthPartition 0 tNov2023).length = 7 :=
  (getMonthPartition_correct 0 tNov2023).2.2.2.2.2.2 (by decide) (by decide)
